import Mathlib

/-!
# Verification of the MCP-generator candidate-matching core

A shallow embedding, in Lean 4, of the candidate-matching and
request-routing logic of the MCP-generator repository
(`mcp_modules/email_interpreter.py`, `mcp_modules/candidate_matcher.py`,
`mcp_modules/profile_retriever.py`, `mcp_modules/resume_builder.py`,
`mcp_modules/main.py`, `utils.py`).

Python dictionaries, lists, strings and numbers are embedded as a single
JSON-like inductive type `JVal`; Python machine floats are idealised as
rationals (scores in the source only ever take exact two-decimal values);
the two external language-model calls are passed in as oracle parameters;
file-system state (the `profiles/` directory) is an explicit association
list threaded through the functions that read or write it.
-/

/-- JSON-like dynamic value: the embedding of the Python values
(`dict` / `list` / `str` / numbers / booleans / `None`) that flow through
the pipeline context and the profile store. Objects are association lists
in insertion order, mirroring Python 3 dicts. -/
inductive JVal where
  | null : JVal
  | bool : Bool → JVal
  | num : ℚ → JVal
  | str : String → JVal
  | list : List JVal → JVal
  | obj : List (String × JVal) → JVal
  deriving Repr

namespace JVal

/-- `d[k]` lookup on an embedded dict; `none` when the key is absent or the
value is not a dict. -/
def dGet : JVal → String → Option JVal
  | .obj l, k => (l.find? (fun e => e.1 = k)).map (·.2)
  | _, _ => none

/-- Python `d.get(k, default)`. -/
def dGetD (v : JVal) (k : String) (d : JVal) : JVal := (dGet v k).getD d

/-- Python `k in d`. -/
def dHas (v : JVal) (k : String) : Bool := (dGet v k).isSome

/-- `d[k] = x` on an embedded dict: replaces the first binding of `k`
(keeping insertion order, as CPython does) or appends a new one. -/
def dSetL : List (String × JVal) → String → JVal → List (String × JVal)
  | [], k, x => [(k, x)]
  | e :: l, k, x => if e.1 = k then (k, x) :: l else e :: dSetL l k x

/-- `d[k] = x`; on a non-dict the assignment is a no-op (such a statement
would raise in Python and is never reached in the embedded code). -/
def dSet : JVal → String → JVal → JVal
  | .obj l, k, x => .obj (dSetL l k x)
  | v, _, _ => v

/-- Python truthiness of an embedded value. -/
def truthy : JVal → Bool
  | .null => false
  | .bool b => b
  | .num q => decide (q ≠ 0)
  | .str s => decide (s ≠ "")
  | .list l => !l.isEmpty
  | .obj l => !l.isEmpty

/-- Python `==` between an embedded value and a string constant — the only
equality the embedded code performs (`request_type == "..."`,
`user_id == "..."`, and list membership of a string skill, where
`str.__eq__` is `False` on any non-string). -/
def eqStr (v : JVal) (s : String) : Bool :=
  match v with
  | .str t => t = s
  | _ => false

/-- Python `skill in l` for a string needle over an embedded list. -/
def pyMemStr (s : String) (l : List JVal) : Bool := l.any (fun y => eqStr y s)

/-- Extract a rational from a numeric value (total; the embedded code only
applies it where the source guarantees a number). -/
def asNum : JVal → ℚ
  | .num q => q
  | _ => 0

/-- Extract the element list of an embedded Python list. -/
def asList : JVal → List JVal
  | .list l => l
  | _ => []

/-- Extract the string of an embedded Python string. -/
def asStr : JVal → String
  | .str s => s
  | _ => ""

end JVal

/-- ASCII lowercase of one character (Python `str.lower` on the ASCII
inputs handled by this code base). -/
def pyLowerChar (c : Char) : Char :=
  if 'A' ≤ c ∧ c ≤ 'Z' then Char.ofNat (c.toNat + 32) else c

/-- Python `str.lower()` (ASCII). -/
def pyLower (s : String) : String := String.mk (s.toList.map pyLowerChar)

/-- The characters Python's `str.strip()` and the regex class `\s` treat as
whitespace (ASCII). -/
def isPySpace (c : Char) : Bool :=
  c = ' ' ∨ c = '\t' ∨ c = '\n' ∨ c = '\x0d' ∨ c = '\x0c' ∨ c = '\x0b'

/-- Python `str.strip()`. -/
def pyStrip (s : String) : String :=
  String.mk (((s.toList.dropWhile isPySpace).reverse.dropWhile isPySpace).reverse)

/-- ASCII uppercase of one character. -/
def pyUpperChar (c : Char) : Char :=
  if 'a' ≤ c ∧ c ≤ 'z' then Char.ofNat (c.toNat - 32) else c

/-- Python `str.title()` on ASCII text: the first letter of every run of
letters is uppercased, the rest lowercased (used for defaulted profile
names). -/
def pyTitleGo : Bool → List Char → List Char
  | _, [] => []
  | prevAlpha, c :: cs =>
    if c.isAlpha then
      (if prevAlpha then pyLowerChar c else pyUpperChar c) :: pyTitleGo true cs
    else
      c :: pyTitleGo false cs

/-- Python `str.title()`. -/
def pyTitle (s : String) : String := String.mk (pyTitleGo false s.toList)

/-- Is `a` an infix (contiguous sublist) of `b`?  Structural recursion so
the kernel can evaluate it. -/
def listInfix (a : List Char) : List Char → Bool
  | [] => a.isEmpty
  | c :: cs => a.isPrefixOf (c :: cs) || listInfix a cs

/-- Python substring test `a in b`. -/
def strIn (a b : String) : Bool := listInfix a.toList b.toList

/-- Python `str.replace(old, new)` restricted to the single-character use
`user_id.replace("_", " ")` in `load_profile`. -/
def pyReplaceChar (s : String) (o n : Char) : String :=
  String.mk (s.toList.map (fun c => if c = o then n else c))

/-! ## A small regex engine

`email_interpreter.py` classifies emails with `re.search` over a fixed list
of patterns.  Those patterns use only: literal text, the classes `\s` and
`[a-zA-Z0-9_]` under `+`, one capturing group `([a-zA-Z0-9_]+)`,
non-capturing optional groups `(?:...)?` and alternation.  The engine below
implements exactly that subset with Python's leftmost search and
greedy/backtracking preference order. -/

/-- The two character classes appearing in the source patterns. -/
inductive CC where
  | ws : CC
  | word : CC
  deriving Repr

/-- Membership in a character class (`\s`, `[a-zA-Z0-9_]`). -/
def CC.test : CC → Char → Bool
  | .ws, c => isPySpace c
  | .word, c => c.isAlpha || c.isDigit || c = '_'

/-- Regex AST for the subset of syntax used by the source patterns. -/
inductive Re where
  | eps : Re
  | lit : List Char → Re
  | plus : CC → Re
  | grp : CC → Re
  | opt : Re → Re
  | alt : Re → Re → Re
  | seq : Re → Re → Re
  deriving Repr

/-- The greedy split candidates for `c+` on input `cs`: pairs
(consumed, rest) with a non-empty consumed prefix inside the class,
longest first — the order a backtracking matcher tries them. -/
def greedyRuns (p : CC) (cs : List Char) : List (List Char × List Char) :=
  let n := (cs.takeWhile p.test).length
  (List.range n).map (fun j => (cs.take (n - j), cs.drop (n - j)))

/-- Backtracking matcher in continuation-passing style.  `g` is the text
captured so far by the (single) group; the continuation receives the
remaining input and the capture, and the whole call returns the capture of
the first overall match in backtracking order (`none` if no match). -/
def Re.mtch : Re → List Char → Option (List Char) →
    (List Char → Option (List Char) → Option (Option (List Char))) →
    Option (Option (List Char))
  | .eps, cs, g, k => k cs g
  | .lit l, cs, g, k => if l.isPrefixOf cs then k (cs.drop l.length) g else none
  | .plus p, cs, g, k => (greedyRuns p cs).findSome? (fun pr => k pr.2 g)
  | .grp p, cs, _g, k => (greedyRuns p cs).findSome? (fun pr => k pr.2 (some pr.1))
  | .opt r, cs, g, k =>
      match r.mtch cs g k with
      | some x => some x
      | none => k cs g
  | .alt a b, cs, g, k =>
      match a.mtch cs g k with
      | some x => some x
      | none => b.mtch cs g k
  | .seq a b, cs, g, k => a.mtch cs g (fun cs' g' => b.mtch cs' g' k)

/-- Python `re.search`: try a match at every start position left to right;
`some g` means a match was found whose group-1 capture is `g`. -/
def reSearch (r : Re) : List Char → Option (Option (List Char))
  | [] => r.mtch [] none (fun _ g => some g)
  | c :: cs =>
      match r.mtch (c :: cs) none (fun _ g => some g) with
      | some g => some g
      | none => reSearch r cs

/-- Does the pattern match anywhere in the text? -/
def reTest (r : Re) (cs : List Char) : Bool := (reSearch r cs).isSome

/-- Literal regex from a string. -/
def L (s : String) : Re := Re.lit s.toList

/-- Sequence a list of regexes. -/
def rcat (l : List Re) : Re := l.foldr Re.seq Re.eps

/-- `(?:...)?` over a sequence. -/
def ropt (l : List Re) : Re := Re.opt (rcat l)

/-- `\s+`. -/
def W : Re := Re.plus CC.ws

/-- `([a-zA-Z0-9_]+)`. -/
def G : Re := Re.grp CC.word

/-! ## Email interpreter (`mcp_modules/email_interpreter.py`) -/

/-- `EmailInterpreter.find_candidate_patterns`: the fifteen
"find best candidate" regexes, in source order. -/
def find_candidate_patterns : List Re := [
  rcat [L "find", W, ropt [L "the", W], L "best", W, L "candidate"],
  rcat [L "who", W, ropt [L "is", W], ropt [L "the", W], L "best", W,
        ropt [L "suited", W], ropt [L "for", W], ropt [L "this", W],
        Re.alt (L "job") (Re.alt (L "position") (L "role"))],
  rcat [L "recommend", W, ropt [L "a", W], L "candidate"],
  rcat [L "suggest", W, ropt [L "a", W], ropt [L "suitable", W], L "candidate"],
  rcat [L "which", W, L "candidate", W, ropt [L "is", W], ropt [L "best", W],
        ropt [L "suited", W], ropt [L "for", W], ropt [L "this", W],
        Re.alt (L "job") (Re.alt (L "position") (L "role"))],
  rcat [L "select", W, ropt [L "the", W], ropt [L "best", W], L "candidate"],
  rcat [L "choose", W, ropt [L "the", W], ropt [L "best", W], L "candidate"],
  rcat [L "match", W, ropt [L "a", W], L "candidate", W, ropt [L "for", W],
        ropt [L "this", W], Re.alt (L "job") (Re.alt (L "position") (L "role"))],
  rcat [L "pick", W, ropt [L "the", W], ropt [L "best", W], L "candidate"],
  rcat [L "identify", W, ropt [L "the", W], ropt [L "best", W], L "candidate"],
  rcat [L "shortlist", W, ropt [L "the", W], ropt [L "best", W], L "candidate"],
  rcat [L "from", W, ropt [L "our", W], ropt [L "available", W],
        ropt [L "candidate", W], L "profile", Re.opt (L "s")],
  rcat [L "from", W, ropt [L "our", W], ropt [L "talent", W],
        Re.alt (L "pool") (L "database")],
  rcat [L "review", W, ropt [L "our", W], ropt [L "candidate", W],
        L "profile", Re.opt (L "s")],
  rcat [L "screen", W, ropt [L "our", W], ropt [L "candidate", W],
        L "profile", Re.opt (L "s")]]

/-- The seven "specific user" regexes of `detect_request_type` /
`extract_user_id`, in source order. -/
def user_patterns : List Re := [
  rcat [L "resume", W, Re.opt (Re.alt (rcat [L "of", W]) (rcat [L "for", W])), G],
  rcat [L "profile", W, Re.opt (Re.alt (rcat [L "of", W]) (rcat [L "for", W])), G],
  rcat [L "send", W, G, Re.opt (L "'s"), W, L "resume"],
  rcat [G, W, ropt [L "for", W], ropt [L "this", W],
        Re.alt (L "job") (Re.alt (L "position") (L "role"))],
  rcat [L "hire", W, G],
  rcat [L "consider", W, G],
  rcat [G, W, ropt [L "would", W, L "be", W],
        Re.alt (L "suitable") (Re.alt (L "good") (L "perfect")), W,
        ropt [L "for", W], ropt [L "this", W],
        Re.alt (L "job") (Re.alt (L "position") (L "role"))]]

/-- Does any pattern in the list match the (already lowercased) text? -/
def anyMatch (ps : List Re) (cs : List Char) : Bool := ps.any (fun r => reTest r cs)

/-- `EmailInterpreter.detect_request_type`: the find-best-candidate pattern
list is scanned first, then the specific-user list, else
`"general_job_posting"` — there is no further fallback in the source. -/
def detect_request_type (email_text : String) : String :=
  let el := (pyLower email_text).toList
  if anyMatch find_candidate_patterns el then "find_best_candidate"
  else if anyMatch user_patterns el then "specific_user"
  else "general_job_posting"

/-- One step of `EmailInterpreter.extract_user_id`'s loop: the first
pattern whose search succeeds with a stripped group of length > 1 wins. -/
def extractLoop : List Re → List Char → String
  | [], _ => "default_user"
  | r :: rs, cs =>
      match reSearch r cs with
      | some (some g) =>
          let uid := pyStrip (String.mk g)
          if uid ≠ "" ∧ uid.length > 1 then uid else extractLoop rs cs
      | _ => extractLoop rs cs

/-- `EmailInterpreter.extract_user_id`. -/
def extract_user_id (email_text : String) : String :=
  extractLoop user_patterns (pyLower email_text).toList

/-- Modelled from the spec (§4.1): classification with the yes/no
language-model fallback that the spec describes — "if no pattern matches,
fall back to a single yes/no language-model classification call asking
whether the email requests a best-candidate search".  The LLM call is the
oracle parameter `llm`.  This definition follows the spec's words and is
compared against `detect_request_type`, the definition translated from the
source, which has no such fallback. -/
def detect_request_type_spec (llm : String → Bool) (email_text : String) : String :=
  let el := (pyLower email_text).toList
  if anyMatch find_candidate_patterns el then "find_best_candidate"
  else if anyMatch user_patterns el then "specific_user"
  else if llm email_text then "find_best_candidate"
  else "general_job_posting"

/-! ## Numeric helpers: Python `round(x, 2)` and `f"{x:.2f}"`

Machine floats are idealised as rationals; `round` uses round-half-to-even
as CPython does. -/

/-- Round a rational to the nearest integer, halves to even. -/
def roundHalfEven (q : ℚ) : ℤ :=
  if q - (⌊q⌋ : ℚ) < 1/2 then ⌊q⌋
  else if 1/2 < q - (⌊q⌋ : ℚ) then ⌊q⌋ + 1
  else if ⌊q⌋ % 2 = 0 then ⌊q⌋ else ⌊q⌋ + 1

/-- Python `round(q, 2)`. -/
def pyRound2 (q : ℚ) : ℚ := ((roundHalfEven (q * 100) : ℚ)) / 100

/-- Python `f"{q:.2f}"` for the non-negative scores this code formats. -/
def fmt2 (q : ℚ) : String :=
  let m := (roundHalfEven (q * 100)).toNat
  let r := m % 100
  toString (m / 100) ++ "." ++ (if r < 10 then "0" ++ toString r else toString r)

/-- `json.dumps` with CPython's default separators (`", "` / `": "`).
Only its output's substrings matter to the embedded code (keyword and
year-pattern scans). -/
def jdump : JVal → String
  | .null => "null"
  | .bool true => "true"
  | .bool false => "false"
  | .num q => if q.den = 1 then toString q.num else toString q
  | .str s => "\"" ++ s ++ "\""
  | .list l => "[" ++ String.intercalate ", " (l.attach.map (fun x => jdump x.1)) ++ "]"
  | .obj l =>
      "\x7b" ++
        String.intercalate ", "
          (l.attach.map (fun e => "\"" ++ e.1.1 ++ "\": " ++ jdump e.1.2)) ++
      "\x7d"
  termination_by v => sizeOf v
  decreasing_by
  · have h := List.sizeOf_lt_of_mem x.2
    simp only [JVal.list.sizeOf_spec]
    omega
  · have h := List.sizeOf_lt_of_mem e.2
    have h2 : sizeOf e.1.2 < sizeOf e.1 := by
      obtain ⟨⟨k, v⟩, hm⟩ := e
      simp [Prod.mk.sizeOf_spec]
    simp only [JVal.obj.sizeOf_spec]
    omega

/-- `str()` of an embedded scalar as CPython prints it.  Containers are
rendered as JSON (an approximation of `repr`; the verified claims never
stringify nested containers). -/
def pyStr : JVal → String
  | .str s => s
  | .bool true => "True"
  | .bool false => "False"
  | .null => "None"
  | .num q => if q.den = 1 then toString q.num else toString q
  | v => jdump v

/-! ## Candidate scorer (`mcp_modules/candidate_matcher.py`, `utils.py`) -/

/-- One list element of `safe_string_processing` (`utils.py` /
`CandidateMatcher.safe_string_processing`): `None` is skipped, a string is
stripped (and lowercased when `lower`), a dict collapses to its `name`
field or its JSON dump, anything else to its `str()`. -/
def sspItem (lower : Bool) (item : JVal) : Option String :=
  match item with
  | .null => none
  | .str s => some (if lower then pyLower (pyStrip s) else pyStrip s)
  | .obj d =>
      if (JVal.obj d).dHas "name" then
        let n := pyStr ((JVal.obj d).dGetD "name" .null)
        some (if lower then pyLower (pyStrip n) else pyStrip n)
      else
        some (if lower then pyLower (jdump (.obj d)) else jdump (.obj d))
  | v => some (if lower then pyLower (pyStr v) else pyStr v)

/-- `safe_string_processing(items, to_lower)`: falsy input gives `[]`; a
string is split on commas; a list is processed element-wise; anything else
gives `[]`; empty results are filtered out. -/
def safe_string_processing (lower : Bool) (items : JVal) : List String :=
  if ¬ items.truthy then []
  else
    match items with
    | .str s =>
        ((s.splitOn ",").filter (fun it => it ≠ "" ∧ pyStrip it ≠ "")).map
          (fun it => if lower then pyLower (pyStrip it) else pyStrip it)
    | .list l => (l.filterMap (sspItem lower)).filter (fun s => s ≠ "")
    | _ => []

/-- `CandidateMatcher.calculate_skills_match`, on the keyword-matching path
(the sentence-transformer embedding backend is an external model and is
embedded as unavailable, exactly the source's fallback branch): a job
skill matches when it contains or is contained in some candidate skill;
the score is the matched fraction rounded to two decimals. -/
def calculate_skills_match (job_skills candidate_skills : JVal) : ℚ :=
  let j := safe_string_processing true job_skills
  let c := safe_string_processing true candidate_skills
  if j.isEmpty || c.isEmpty then 0
  else
    let hits := j.countP (fun js => c.any (fun cs => strIn js cs || strIn cs js))
    pyRound2 ((hits : ℚ) / (j.length : ℚ))

/-- Digit-string to the integer Python's `int()` gives. -/
def digitsToNat (ds : List Char) : ℕ :=
  ds.foldl (fun n c => n * 10 + (c.toNat - 48)) 0

/-- One fuel-indexed step of the year scan (structural in the fuel so the
kernel can evaluate it; `yearScan` supplies fuel covering the whole
input). -/
def yearScanF : ℕ → List Char → ℕ
  | 0, _ => 0
  | _, [] => 0
  | n + 1, c :: cs =>
    if c.isDigit then
      let ds := c :: cs.takeWhile Char.isDigit
      let rest' := (cs.dropWhile Char.isDigit).dropWhile isPySpace
      if "year".toList.isPrefixOf rest' then digitsToNat ds + yearScanF n (rest'.drop 4)
      else if "yr".toList.isPrefixOf rest' then digitsToNat ds + yearScanF n (rest'.drop 2)
      else yearScanF n cs
    else yearScanF n cs

/-- `re.findall(r'(\d+)\s*(?:year|yr)', text)` summed with `int`: scan left
to right; at a digit take the maximal digit run, optional whitespace, then
`year` or `yr`; on success continue after the match, otherwise retry one
character further. -/
def yearScan (cs : List Char) : ℕ := yearScanF cs.length cs

/-- The `total_years` a plain-string experience yields in
`calculate_experience_match`: `2` when any of the indicator substrings
`year`/`yr`/`experience`/`exp` occurs in the lowercased text, else `1`
(the source's "default assumption for string experience"). -/
def stringExperienceYears (s : String) : ℕ :=
  if ["year", "yr", "experience", "exp"].any (fun ind => strIn ind (pyLower s)) then 2 else 1

/-- The `total_years` a list experience yields: the summed `<N> year/yr`
regex hits over the stringified entries when positive, else the length of
the list. -/
def listExperienceYears (l : List JVal) : ℕ :=
  let yc := (l.map (fun e =>
    match e with
    | .obj d => yearScan (pyLower (jdump (.obj d))).toList
    | v => yearScan (pyLower (pyStr v)).toList)).sum
  if yc > 0 then yc else l.length

/-- The fixed `(min, max)` year table of `calculate_experience_match`. -/
def level_requirements (jl : String) : Option (ℕ × ℕ) :=
  if jl = "entry" then some (0, 2)
  else if jl = "junior" then some (0, 2)
  else if jl = "mid" then some (2, 5)
  else if jl = "intermediate" then some (2, 5)
  else if jl = "senior" then some (5, 10)
  else if jl = "expert" then some (10, 20)
  else if jl = "lead" then some (5, 15)
  else none

/-- The level-independent fallback scoring on absolute years. -/
def defaultYearsScore (ty : ℕ) : ℚ :=
  if ty ≥ 5 then 9/10 else if ty ≥ 2 then 7/10 else if ty ≥ 1 then 1/2 else 3/10

/-- The range-table scoring of `calculate_experience_match` once
`total_years` and a recognised level are known. -/
def levelRangeScore (mn mx ty : ℕ) : ℚ :=
  if mn ≤ ty ∧ ty ≤ mx then 1
  else if ty > mx then 4/5
  else max (1/5) (((ty : ℚ) / (max mn 1 : ℕ)) * (3/5))

/-- `CandidateMatcher.calculate_experience_match`.  A `.lower()` call on a
truthy non-string level raises in the source and is caught by the
surrounding `except`, which returns `0.5`. -/
def calculate_experience_match (job_level candidate_experience : JVal) : ℚ :=
  if ¬ candidate_experience.truthy then
    if job_level.truthy then
      match job_level with
      | .str s => if pyLower s = "entry" then 1/10 else 0
      | _ => 1/2
    else 0
  else
    let ty : ℕ :=
      match candidate_experience with
      | .str s => stringExperienceYears s
      | .list l => listExperienceYears l
      | _ => 1
    if job_level.truthy then
      match job_level with
      | .str s =>
          match level_requirements (pyStrip (pyLower s)) with
          | some (mn, mx) => levelRangeScore mn mx ty
          | none => defaultYearsScore ty
      | _ => 1/2
    else defaultYearsScore ty

/-- The keyword list `calculate_education_match` builds from the job's
title, company and skills; `none` models the `AttributeError` a `.lower()`
on a truthy non-string title/company raises (caught by the surrounding
`except`, which returns `0.3`). -/
def eduKeywords (jr : JVal) : Option (List String) :=
  if ¬ jr.truthy then some []
  else
    let t := jr.dGetD "job_title" (.str "")
    let c := jr.dGetD "company" (.str "")
    let kw1 : Option (List String) :=
      if t.truthy then
        match t with
        | .str s => some [pyLower s]
        | _ => none
      else some []
    let kw2 : Option (List String) :=
      if c.truthy then
        match c with
        | .str s => some [pyLower s]
        | _ => none
      else some []
    let sk := jr.dGetD "skills" (.list [])
    let kw3 : List String := if sk.truthy then safe_string_processing true sk else []
    match kw1, kw2 with
    | some a, some b => some (a ++ b ++ kw3)
    | _, _ => none

/-- The concatenated lowercased education text
`calculate_education_match` scans. -/
def educationText (ce : JVal) : String :=
  match ce with
  | .str s => pyLower s
  | .list l =>
      String.intercalate " " (l.map (fun e =>
        match e with
        | .obj d => pyLower (jdump (.obj d))
        | v => pyLower (pyStr v)))
  | _ => ""

/-- The fixed higher-education bonus keywords. -/
def higher_ed_keywords : List String :=
  ["bachelor", "master", "phd", "doctorate", "engineering", "computer science", "technology"]

/-- `CandidateMatcher.calculate_education_match`. -/
def calculate_education_match (job_requirements cand_edu : JVal) : ℚ :=
  if ¬ cand_edu.truthy then 3/10
  else
    match eduKeywords job_requirements with
    | none => 3/10
    | some kws =>
        let txt := educationText cand_edu
        let hits := kws.countP (fun kw => kw ≠ "" && strIn kw txt)
        let base : ℚ := if hits > 0 then min (1/2 + (hits : ℚ) * (1/10)) 1 else 1/2
        let score :=
          if higher_ed_keywords.any (fun kw => strIn kw txt) then min (base + 1/10) 1 else base
        pyRound2 score

/-- `CandidateMatcher.calculate_overall_match`:
`round(skills*0.6 + experience*0.3 + education*0.1, 2)`. -/
def calculate_overall_match (s e d : ℚ) : ℚ :=
  pyRound2 (s * (3/5) + e * (3/10) + d * (1/10))

/-- The candidate record `find_best_candidate` builds for profile `p` at
enumeration index `i` (0-based; the source displays `i+1`). -/
def buildCandidate (jr : JVal) (i : ℕ) (p : JVal) : JVal :=
  let skillsArg :=
    let a := jr.dGetD "skills" (.list [])
    if a.truthy then a else jr.dGetD "required_skills" (.list [])
  let ss := calculate_skills_match skillsArg (p.dGetD "skills" (.list []))
  let es := calculate_experience_match (jr.dGetD "experience_level" (.str "entry"))
    (p.dGetD "experience" (.list []))
  let ds := calculate_education_match jr (p.dGetD "education" (.list []))
  let ov := calculate_overall_match ss es ds
  .obj [
    ("user_id", p.dGetD "user_id" (.str ("candidate_" ++ toString (i + 1)))),
    ("name", p.dGetD "name" (p.dGetD "user_id" (.str ("Candidate " ++ toString (i + 1))))),
    ("email", p.dGetD "email"
      (.str (pyStr (p.dGetD "user_id" (.str ("candidate" ++ toString (i + 1)))) ++ "@example.com"))),
    ("phone", p.dGetD "phone" (.str "Not provided")),
    ("skills", .list ((safe_string_processing false (p.dGetD "skills" (.list []))).map .str)),
    ("experience", p.dGetD "experience" (.list [])),
    ("education", p.dGetD "education" (.list [])),
    ("breakdown", .obj [
      ("skills_match", .str (fmt2 ss)),
      ("experience_match", .str (fmt2 es)),
      ("education_match", .str (fmt2 ds)),
      ("overall_match", .str (fmt2 ov))]),
    ("overall_score", .num ov)]

/-- The sort key `lambda x: x['overall_score']`. -/
def overallKey (c : JVal) : ℚ := (c.dGetD "overall_score" (.num 0)).asNum

/-- Stable insertion of `x` (an element originally preceding those of the
list) into a descending-sorted list: `x` goes before the first element
with key not above its own, so equal keys keep original order — the
behaviour of CPython's stable `list.sort(key=..., reverse=True)`. -/
def insertDesc (x : JVal) : List JVal → List JVal
  | [] => [x]
  | d :: ds => if overallKey x < overallKey d then d :: insertDesc x ds else x :: d :: ds

/-- `candidates.sort(key=lambda x: x['overall_score'], reverse=True)`:
the unique descending stable sort. -/
def pySortDesc : List JVal → List JVal
  | [] => []
  | x :: xs => insertDesc x (pySortDesc xs)

/-- The candidate list built over the profiles in enumeration order. -/
def candidateList (jr : JVal) (profs : List JVal) : List JVal :=
  profs.enum.map (fun ip => buildCandidate jr ip.1 ip.2)

/-! ## Profile store (`mcp_modules/profile_retriever.py`)

The `profiles/` directory is an association list from `user_id` (the
filename stem) to the parsed JSON record; `now` stands for
`datetime.datetime.now().isoformat()`. -/

/-- The profile store: one parsed JSON record per `<user_id>.json` file. -/
abbrev Store := List (String × JVal)

/-- Lookup of `<uid>.json`. -/
def storeGet (s : Store) (uid : String) : Option JVal :=
  (s.find? (fun e => e.1 = uid)).map (·.2)

/-- (Over)write of `<uid>.json`. -/
def storeSet (s : Store) (uid : String) (p : JVal) : Store := JVal.dSetL s uid p

/-- `ProfileRetriever._get_default_profile` (also the default record
`load_profile` creates). -/
def default_profile (uid : String) : JVal :=
  .obj [
    ("user_id", .str uid),
    ("name", .str (pyTitle (pyReplaceChar uid '_' ' '))),
    ("email", .str (uid ++ "@example.com")),
    ("phone", .str "Not provided"),
    ("education", .list []),
    ("experience", .list []),
    ("skills", .list []),
    ("resume_path", .null),
    ("cover_letter_path", .null),
    ("created_at", .null),
    ("updated_at", .null)]

/-- `ProfileRetriever.save_profile`: forces `user_id` to the storage key,
stamps `updated_at`, backfills a missing or falsy `created_at`, writes the
file.  The source mutates `profile_data` in place, so the mutated record is
returned alongside the store (on a non-dict the first assignment raises
and the `except` leaves the store unchanged). -/
def save_profile (now : String) (s : Store) (uid : String) (p : JVal) : Store × JVal :=
  match p with
  | .obj _ =>
      let p1 := p.dSet "user_id" (.str uid)
      let p2 := p1.dSet "updated_at" (.str now)
      let p3 :=
        if ¬ p2.dHas "created_at" ∨ ¬ (p2.dGetD "created_at" .null).truthy then
          p2.dSet "created_at" (.str now)
        else p2
      (storeSet s uid p3, p3)
  | _ => (s, p)

/-- Reading an existing `<uid>.json`: a parsed dict gets `user_id`
backfilled when missing; a non-dict payload makes the backfill assignment
raise, and the `except` returns `_get_default_profile` without saving. -/
def loadExisting (uid : String) (p : JVal) : JVal :=
  match p with
  | .obj _ => if p.dHas "user_id" then p else p.dSet "user_id" (.str uid)
  | _ => default_profile uid

/-- `ProfileRetriever.load_profile`: an absent file is synthesised as a
default profile and persisted through `save_profile` (whose in-place
mutation means the returned record carries the fresh timestamps). -/
def load_profile (now : String) (s : Store) (uid : String) : JVal × Store :=
  match storeGet s uid with
  | none =>
      let sp := save_profile now s uid (default_profile uid)
      (sp.2, sp.1)
  | some p => (loadExisting uid p, s)

/-- `ProfileRetriever.get_all_profiles`: every `.json` file except the
`FIND_BEST_CANDIDATE` sentinel, loaded and kept when truthy. -/
def get_all_profiles (s : Store) : List JVal :=
  ((s.filter (fun e => e.1 ≠ "FIND_BEST_CANDIDATE")).map
    (fun e => loadExisting e.1 e.2)).filter JVal.truthy

/-- `ProfileRetriever.update_profile_paths`: partial update of the two
artifact paths (only truthy arguments touch their field), then
`save_profile`. -/
def update_profile_paths (now : String) (s : Store) (uid : String)
    (resume_path cover_letter_path : JVal) : Store :=
  let lp := load_profile now s uid
  let p1 := if resume_path.truthy then lp.1.dSet "resume_path" resume_path else lp.1
  let p2 := if cover_letter_path.truthy then p1.dSet "cover_letter_path" cover_letter_path else p1
  (save_profile now lp.2 uid p2).1

/-- `ProfileRetriever.update_profile_field`. -/
def update_profile_field (now : String) (s : Store) (uid field : String) (value : JVal) : Store :=
  let lp := load_profile now s uid
  (save_profile now lp.2 uid (lp.1.dSet field value)).1

/-- `ProfileRetriever.add_skill`: saves only when the skill is new.  When
the stored `skills` value is not a list the source's membership test or
`append` raises (uncaught); the embedded function leaves the store
unchanged in that corner. -/
def add_skill (now : String) (s : Store) (uid skill : String) : Store :=
  let lp := load_profile now s uid
  let p := if ¬ lp.1.dHas "skills" then lp.1.dSet "skills" (.list []) else lp.1
  match p.dGetD "skills" (.list []) with
  | .list l =>
      if ¬ JVal.pyMemStr skill l then
        (save_profile now lp.2 uid (p.dSet "skills" (.list (l ++ [.str skill])))).1
      else lp.2
  | _ => lp.2

/-- `ProfileRetriever.add_experience`: always appends and saves. -/
def add_experience (now : String) (s : Store) (uid : String) (exp : JVal) : Store :=
  let lp := load_profile now s uid
  let p := if ¬ lp.1.dHas "experience" then lp.1.dSet "experience" (.list []) else lp.1
  match p.dGetD "experience" (.list []) with
  | .list l => (save_profile now lp.2 uid (p.dSet "experience" (.list (l ++ [exp])))).1
  | _ => lp.2

/-- `ProfileRetriever.add_education`: always appends and saves. -/
def add_education (now : String) (s : Store) (uid : String) (edu : JVal) : Store :=
  let lp := load_profile now s uid
  let p := if ¬ lp.1.dHas "education" then lp.1.dSet "education" (.list []) else lp.1
  match p.dGetD "education" (.list []) with
  | .list l => (save_profile now lp.2 uid (p.dSet "education" (.list (l ++ [edu])))).1
  | _ => lp.2

/-! ## Candidate matcher top level (`candidate_matcher.py`) -/

/-- `CandidateMatcher.find_best_candidate`.  `oracle` stands for the
`interpret_email` language-model call used only when no job requirements
were passed but an email text was; `store` backs the profile-directory
fallback used only when no profile list was passed. -/
def find_best_candidate (oracle : String → JVal) (store : Store)
    (email_text job_requirements profiles : JVal) : JVal :=
  let jr :=
    if ¬ job_requirements.truthy ∧ email_text.truthy then oracle email_text.asStr
    else job_requirements
  if ¬ jr.truthy then
    .obj [("status", .str "error"), ("message", .str "No job requirements provided")]
  else
    let profs : List JVal :=
      if ¬ profiles.truthy then
        (store.map (fun e => loadExisting e.1 e.2)).filter JVal.truthy
      else profiles.asList
    if profs.isEmpty then
      .obj [("status", .str "error"), ("message", .str "No valid profiles found")]
    else
      let cands := candidateList jr profs
      if cands.isEmpty then
        .obj [("status", .str "error"),
              ("message", .str "No valid candidate profiles could be processed")]
      else
        let sorted := pySortDesc cands
        .obj [
          ("status", .str "success"),
          ("best_candidate", sorted.headD .null),
          ("all_candidates", .list (sorted.take 5)),
          ("job_requirements", jr),
          ("total_candidates_evaluated", .num (cands.length : ℚ))]

/-- The MCP wrapper `candidate_matcher(context)`: reads
`output.job_info`, `input.email_text` and `input.all_profiles`, stores the
matching result under `output.candidate_matching_result`, and returns the
context.  It sets no top-level `status` of its own. -/
def candidate_matcher_mcp (oracle : String → JVal) (store : Store) (ctx : JVal) : JVal :=
  let jr := if ctx.dHas "output" then (ctx.dGetD "output" (.obj [])).dGetD "job_info" .null
            else .null
  let email_text := if ctx.dHas "input" then (ctx.dGetD "input" (.obj [])).dGetD "email_text" .null
                    else .null
  let profiles := if ctx.dHas "input" then (ctx.dGetD "input" (.obj [])).dGetD "all_profiles" .null
                  else .null
  let result := find_best_candidate oracle store email_text jr profiles
  ctx.dSet "output" ((ctx.dGetD "output" (.obj [])).dSet "candidate_matching_result" result)

/-! ## Request router (`profile_retriever.py` coordination handlers) -/

/-- `ProfileRetriever._handle_best_candidate_request`.  The
`ImportError`/`except` fallback to legacy matching cannot fire in the
embedding (the embedded calls are total), so the handler is the straight
path of the source: no profiles → the structural error dict; otherwise run
the candidate matcher and, if the context's `status` reads `"success"`,
look for `output.best_candidate` to attach the selected profile. -/
def handle_best_candidate_request (oracle : String → JVal) (now : String)
    (store : Store) (ctx : JVal) : JVal × Store :=
  let all_profiles := get_all_profiles store
  if all_profiles.isEmpty then
    (.obj [
      ("status", .str "error"),
      ("error", .str "No candidate profiles found"),
      ("output", .obj []),
      ("coordination", ctx.dGetD "coordination" (.obj []))], store)
  else
    let ctx1 := ctx.dSet "input"
      ((ctx.dGetD "input" (.obj [])).dSet "all_profiles" (.list all_profiles))
    let rc := candidate_matcher_mcp oracle store ctx1
    let statusOk :=
      match rc.dGet "status" with
      | some (.str s) => s == "success"
      | _ => false
    if statusOk then
      let best := (rc.dGetD "output" (.obj [])).dGetD "best_candidate" .null
      if best.truthy then
        let buid := best.dGetD "user_id" .null
        if buid.truthy then
          let lp := load_profile now store buid.asStr
          let out := (rc.dGetD "output" (.obj [])).dSet "user_profile" lp.1
            |>.dSet "selected_user_id" buid
            |>.dSet "selection_method" (.str "candidate_matcher")
          (rc.dSet "output" out, lp.2)
        else (rc, store)
      else (rc, store)
    else (rc, store)

/-- `ProfileRetriever._handle_specific_user_request`. -/
def handle_specific_user_request (now : String) (store : Store) (ctx : JVal)
    (uid : String) : JVal × Store :=
  let lp := load_profile now store uid
  let out := (ctx.dGetD "output" (.obj [])).dSet "user_profile" lp.1
    |>.dSet "selected_user_id" (.str uid)
    |>.dSet "selection_method" (.str "specific_user_request")
  ((ctx.dSet "output" out).dSet "status" (.str "success"), lp.2)

/-- `ProfileRetriever._handle_general_request`. -/
def handle_general_request (now : String) (store : Store) (ctx : JVal)
    (uid : String) : JVal × Store :=
  let actual := if uid = "FIND_BEST_CANDIDATE" then "default_user" else uid
  let lp := load_profile now store actual
  let out := (ctx.dGetD "output" (.obj [])).dSet "user_profile" lp.1
    |>.dSet "selected_user_id" (.str actual)
    |>.dSet "selection_method" (.str "default_user")
  ((ctx.dSet "output" out).dSet "status" (.str "success"), lp.2)

/-- `ProfileRetriever.handle_coordination_logic`: dispatch on the
coordination flags set by the email interpreter. -/
def handle_coordination_logic (oracle : String → JVal) (now : String)
    (store : Store) (ctx : JVal) : JVal × Store :=
  let coord := ctx.dGetD "coordination" (.obj [])
  let request_type := coord.dGetD "request_type" (.str "general_job_posting")
  let user_id := coord.dGetD "user_id" (.str "default_user")
  let ucm := coord.dGetD "use_candidate_matcher" (.bool false)
  if JVal.eqStr request_type "find_best_candidate"
      || JVal.eqStr user_id "FIND_BEST_CANDIDATE" || ucm.truthy then
    handle_best_candidate_request oracle now store ctx
  else if JVal.eqStr request_type "specific_user" then
    handle_specific_user_request now store ctx user_id.asStr
  else
    handle_general_request now store ctx user_id.asStr

/-- The MCP wrapper `profile_retriever(context)`: coordination info routes
through `handle_coordination_logic`; otherwise the legacy direct-profile
path loads `input.user_id`.  (`output.retriever`, a Python object handle in
the source, is embedded as a marker string.) -/
def profile_retriever_mcp (oracle : String → JVal) (now : String)
    (store : Store) (ctx : JVal) : JVal × Store :=
  if ctx.dHas "coordination" then handle_coordination_logic oracle now store ctx
  else
    let uid := ((ctx.dGetD "input" (.obj [])).dGetD "user_id" (.str "default_user")).asStr
    let lp := load_profile now store uid
    let out := (ctx.dGetD "output" (.obj [])).dSet "user_profile" lp.1
      |>.dSet "selected_user_id" (.str uid)
      |>.dSet "selection_method" (.str "legacy_direct_call")
      |>.dSet "retriever" (.str "<ProfileRetriever>")
    ((ctx.dSet "output" out).dSet "status" (.str "success"), lp.2)

/-! ## Pipeline stages and the orchestrator (`resume_builder.py`,
`cover_letter_writer.py`, `reply_email_generator.py`, `mcp_modules/main.py`)

The orchestrator calls the stage functions in sequence and aborts (re-raises)
on the first exception.  Each stage is embedded as a total function
returning `Except` — `PyErr.keyError k` models a `KeyError` from a direct
`context[...]` subscript.  `PipeState` carries the profile store, the set of
artifact files on disk, and a log of the render actions performed (a PDF
render itself is an I/O effect; its occurrence and the path it produces are
what the embedded stage records). -/

/-- An uncaught Python exception surfaced by a stage. -/
inductive PyErr where
  | keyError : String → PyErr
  deriving Repr

/-- Filesystem-and-effects state threaded through a pipeline run. -/
structure PipeState where
  store : Store
  files : List String
  rendered : List String
  deriving Repr

/-- `resume_builder(context)`: subscripts `output.user_profile`,
`output.job_info`, `input.user_id`; reuses a recorded, still-existing
resume; otherwise renders `outputs/<uid>/resume.pdf` and records the path
in the profile JSON (a direct `json.dump`, not `save_profile`); finally
sets `output.resume_path` and, when `output.retriever` is present, also
calls `update_profile_paths`. -/
def resume_builder_stage (now : String) (ctx : JVal) (st : PipeState) :
    Except PyErr JVal × PipeState :=
  match ctx.dGet "output" with
  | none => (.error (.keyError "output"), st)
  | some out =>
    match out.dGet "user_profile" with
    | none => (.error (.keyError "user_profile"), st)
    | some _up =>
      match out.dGet "job_info" with
      | none => (.error (.keyError "job_info"), st)
      | some _ji =>
        match (ctx.dGetD "input" (.obj [])).dGet "user_id" with
        | none => (.error (.keyError "user_id"), st)
        | some uidv =>
          let uid := uidv.asStr
          let cached : Option String :=
            match storeGet st.store uid with
            | some prof =>
                let rp := prof.dGetD "resume_path" .null
                if rp.truthy ∧ rp.asStr ∈ st.files then some rp.asStr else none
            | none => none
          match cached with
          | some path =>
              (.ok (ctx.dSet "output" (out.dSet "resume_path" (.str path))),
               if out.dHas "retriever" then
                 { st with store := update_profile_paths now st.store uid (.str path) .null }
               else st)
          | none =>
              let path := "outputs/" ++ uid ++ "/resume.pdf"
              let store1 :=
                match storeGet st.store uid with
                | some prof => storeSet st.store uid (prof.dSet "resume_path" (.str path))
                | none => st.store
              let store2 :=
                if out.dHas "retriever" then
                  update_profile_paths now store1 uid (.str path) .null
                else store1
              (.ok (ctx.dSet "output" (out.dSet "resume_path" (.str path))),
               { store := store2, files := st.files ++ [path],
                 rendered := st.rendered ++ [path] })

/-- `cover_letter_writer(context)`: subscripts the same three context
entries, always renders `outputs/<uid>/cover_letter.pdf`, sets
`output.cover_letter_path`, and calls `update_profile_paths` when
`output.retriever` is present. -/
def cover_letter_writer_stage (now : String) (ctx : JVal) (st : PipeState) :
    Except PyErr JVal × PipeState :=
  match ctx.dGet "output" with
  | none => (.error (.keyError "output"), st)
  | some out =>
    match out.dGet "user_profile" with
    | none => (.error (.keyError "user_profile"), st)
    | some _up =>
      match out.dGet "job_info" with
      | none => (.error (.keyError "job_info"), st)
      | some _ji =>
        match (ctx.dGetD "input" (.obj [])).dGet "user_id" with
        | none => (.error (.keyError "user_id"), st)
        | some uidv =>
          let uid := uidv.asStr
          let path := "outputs/" ++ uid ++ "/cover_letter.pdf"
          let store1 :=
            if out.dHas "retriever" then
              update_profile_paths now st.store uid .null (.str path)
            else st.store
          (.ok (ctx.dSet "output" (out.dSet "cover_letter_path" (.str path))),
           { store := store1, files := st.files ++ [path],
             rendered := st.rendered ++ [path] })

/-- `reply_email_generator(context)`: subscripts `output.user_profile`,
`output.job_info`, `output.resume_path`, `output.cover_letter_path`; sets
`output.email_body` (an inlined text template, embedded as an opaque
rendering of no further interest to the verified claims) and
`output.email_subject` per `get_email_subject`. -/
def reply_email_generator_stage (ctx : JVal) (st : PipeState) :
    Except PyErr JVal × PipeState :=
  match ctx.dGet "output" with
  | none => (.error (.keyError "output"), st)
  | some out =>
    match out.dGet "user_profile" with
    | none => (.error (.keyError "user_profile"), st)
    | some up =>
      match out.dGet "job_info" with
      | none => (.error (.keyError "job_info"), st)
      | some ji =>
        match out.dGet "resume_path" with
        | none => (.error (.keyError "resume_path"), st)
        | some _rp =>
          match out.dGet "cover_letter_path" with
          | none => (.error (.keyError "cover_letter_path"), st)
          | some _cp =>
            let subject := "Application for " ++
              (ji.dGetD "job_title" (.str "Position")).asStr ++ " - " ++
              (up.dGetD "name" (.str "Candidate")).asStr
            let out1 := (out.dSet "email_body" (.str "<reply email body>")).dSet
              "email_subject" (.str subject)
            (.ok (ctx.dSet "output" out1), st)

/-- The orchestrator (`MCPOrchestrator.process_email`) from the router
stage on: the email-interpreter stage has already produced `ctx` (its
language-model extraction is external input); the remaining four stages
run sequentially, and the first exception aborts the run — the source
re-raises it. -/
def run_pipeline (oracle : String → JVal) (now : String) (store : Store)
    (files : List String) (ctx : JVal) : Except PyErr JVal × PipeState :=
  let r1 := profile_retriever_mcp oracle now store ctx
  let st1 : PipeState := { store := r1.2, files := files, rendered := [] }
  match resume_builder_stage now r1.1 st1 with
  | (.error e, st) => (.error e, st)
  | (.ok c2, st2) =>
    match cover_letter_writer_stage now c2 st2 with
    | (.error e, st) => (.error e, st)
    | (.ok c3, st3) =>
      match reply_email_generator_stage c3 st3 with
      | (.error e, st) => (.error e, st)
      | (.ok c4, st4) => (.ok c4, st4)

/-! ## Helper lemmas -/

theorem roundHalfEven_nonneg {q : ℚ} (h : 0 ≤ q) : 0 ≤ roundHalfEven q := by
  unfold roundHalfEven
  have hf : (0 : ℤ) ≤ ⌊q⌋ := Int.floor_nonneg.mpr h
  split_ifs <;> omega

theorem roundHalfEven_le {q : ℚ} {m : ℤ} (h : q ≤ (m : ℚ)) : roundHalfEven q ≤ m := by
  unfold roundHalfEven
  have h1 : ⌊q⌋ ≤ m := by
    have := Int.floor_le_floor h
    simpa using this
  by_cases hc : q - (⌊q⌋ : ℚ) < 1/2
  · simp only [hc, if_true]
    exact h1
  · have h2 : (⌊q⌋ : ℚ) + 1/2 ≤ q := by
      have := not_lt.mp hc
      linarith
    have h4 : ⌊q⌋ < m := by
      by_contra hx
      push_neg at hx
      have hx2 : (m : ℚ) ≤ (⌊q⌋ : ℚ) := by exact_mod_cast hx
      linarith
    simp only [hc, if_false]
    split_ifs <;> omega

theorem pyRound2_nonneg {q : ℚ} (h : 0 ≤ q) : 0 ≤ pyRound2 q := by
  unfold pyRound2
  have := roundHalfEven_nonneg (q := q * 100) (by linarith)
  positivity

theorem pyRound2_le_one {q : ℚ} (h : q ≤ 1) : pyRound2 q ≤ 1 := by
  unfold pyRound2
  have h1 : q * 100 ≤ ((100 : ℤ) : ℚ) := by push_cast; linarith
  have h2 := roundHalfEven_le h1
  rw [div_le_one (by norm_num)]
  exact_mod_cast h2

theorem find?_dSetL_self (l : List (String × JVal)) (k : String) (x : JVal) :
    (JVal.dSetL l k x).find? (fun e => e.1 = k) = some (k, x) := by
  induction l with
  | nil => simp [JVal.dSetL, List.find?]
  | cons e l ih =>
    by_cases he : e.1 = k
    · simp [JVal.dSetL, he, List.find?]
    · simp [JVal.dSetL, he, List.find?, ih]

theorem find?_dSetL_ne (l : List (String × JVal)) (k k' : String) (x : JVal) (h : k' ≠ k) :
    (JVal.dSetL l k x).find? (fun e => e.1 = k') = l.find? (fun e => e.1 = k') := by
  induction l with
  | nil => simp [JVal.dSetL, List.find?, Ne.symm h]
  | cons e l ih =>
    by_cases he : e.1 = k
    · have h2 : ¬ (e.1 = k') := by rw [he]; exact Ne.symm h
      simp [JVal.dSetL, he, List.find?, Ne.symm h, h2]
    · simp [JVal.dSetL, he, List.find?, ih]

/-- Is the value an embedded dict? -/
def isObj : JVal → Bool
  | .obj _ => true
  | _ => false

theorem isObj_dSet (v : JVal) (k : String) (x : JVal) : isObj (v.dSet k x) = isObj v := by
  cases v <;> simp [JVal.dSet, isObj]

theorem dGet_dSet_self (v : JVal) (k : String) (x : JVal) (h : isObj v = true) :
    (v.dSet k x).dGet k = some x := by
  cases v
  all_goals simp [isObj] at h
  simp [JVal.dSet, JVal.dGet, find?_dSetL_self]

theorem dGet_dSet_ne (v : JVal) (k k' : String) (x : JVal) (h : k' ≠ k) :
    (v.dSet k x).dGet k' = v.dGet k' := by
  cases v <;> simp [JVal.dSet, JVal.dGet, find?_dSetL_ne _ _ _ _ h]

theorem dSetL_id (l : List (String × JVal)) (k : String) (v : JVal)
    (h : (l.find? (fun e => e.1 = k)).map (·.2) = some v) : JVal.dSetL l k v = l := by
  induction l with
  | nil => simp [List.find?] at h
  | cons e l ih =>
    by_cases he : e.1 = k
    · simp [List.find?, he] at h
      simp only [JVal.dSetL, he, if_true]
      rw [← h, ← he]
    · simp [List.find?, he] at h
      obtain ⟨a, ha⟩ := h
      simp [JVal.dSetL, he, ih (by simp [ha])]

theorem dSet_id (l : List (String × JVal)) (k : String) (v : JVal)
    (h : (JVal.obj l).dGet k = some v) : (JVal.obj l).dSet k v = .obj l := by
  simp only [JVal.dGet] at h
  simp [JVal.dSet, dSetL_id l k v h]

theorem storeGet_storeSet_self (s : Store) (uid : String) (p : JVal) :
    storeGet (storeSet s uid p) uid = some p := by
  simp [storeGet, storeSet, find?_dSetL_self]

theorem insertDesc_perm (x : JVal) (l : List JVal) : List.Perm (insertDesc x l) (x :: l) := by
  induction l with
  | nil => exact List.Perm.refl _
  | cons d ds ih =>
    by_cases h : overallKey x < overallKey d
    · simp only [insertDesc, if_pos h]
      exact (ih.cons d).trans (List.Perm.swap x d ds)
    · simp [insertDesc, h]

theorem pySortDesc_perm (l : List JVal) : List.Perm (pySortDesc l) l := by
  induction l with
  | nil => exact List.Perm.refl _
  | cons x xs ih => exact (insertDesc_perm x (pySortDesc xs)).trans (ih.cons x)

theorem mem_insertDesc {y x : JVal} {l : List JVal} (h : y ∈ insertDesc x l) :
    y = x ∨ y ∈ l := by
  have := (insertDesc_perm x l).mem_iff.mp h
  simpa using this

theorem insertDesc_pairwise (x : JVal) (l : List JVal)
    (h : l.Pairwise (fun a b => overallKey b ≤ overallKey a)) :
    (insertDesc x l).Pairwise (fun a b => overallKey b ≤ overallKey a) := by
  induction l with
  | nil => simp [insertDesc]
  | cons d ds ih =>
    rw [List.pairwise_cons] at h
    by_cases hlt : overallKey x < overallKey d
    · simp only [insertDesc, if_pos hlt]
      rw [List.pairwise_cons]
      refine ⟨fun y hy => ?_, ih h.2⟩
      rcases mem_insertDesc hy with rfl | hy'
      · exact le_of_lt hlt
      · exact h.1 y hy'
    · simp only [insertDesc, if_neg hlt]
      rw [List.pairwise_cons]
      refine ⟨fun y hy => ?_, List.Pairwise.cons h.1 h.2⟩
      rcases hy with _ | hy'
      · exact not_lt.mp hlt
      · exact le_trans (h.1 y (by assumption)) (not_lt.mp hlt)

theorem pySortDesc_pairwise (l : List JVal) :
    (pySortDesc l).Pairwise (fun a b => overallKey b ≤ overallKey a) := by
  induction l with
  | nil => simp [pySortDesc]
  | cons x xs ih => exact insertDesc_pairwise x (pySortDesc xs) ih

theorem insertDesc_filter (q : ℚ) (x : JVal) (l : List JVal) :
    (insertDesc x l).filter (fun c => decide (overallKey c = q)) =
      (x :: l).filter (fun c => decide (overallKey c = q)) := by
  induction l with
  | nil => rfl
  | cons d ds ih =>
    by_cases hlt : overallKey x < overallKey d
    · simp only [insertDesc, if_pos hlt]
      by_cases hdq : overallKey d = q
      · have hxq : ¬ overallKey x = q := by
          intro hx
          rw [hx, ← hdq] at hlt
          exact lt_irrefl _ hlt
        simp [List.filter_cons, hdq, hxq, ih]
      · simp [List.filter_cons, hdq, ih]
    · simp only [insertDesc, if_neg hlt]

theorem pySortDesc_filter (q : ℚ) (l : List JVal) :
    (pySortDesc l).filter (fun c => decide (overallKey c = q)) =
      l.filter (fun c => decide (overallKey c = q)) := by
  induction l with
  | nil => rfl
  | cons x xs ih =>
    calc (insertDesc x (pySortDesc xs)).filter (fun c => decide (overallKey c = q))
        = (x :: pySortDesc xs).filter (fun c => decide (overallKey c = q)) :=
          insertDesc_filter q x (pySortDesc xs)
      _ = (x :: xs).filter (fun c => decide (overallKey c = q)) := by
          simp [List.filter_cons, ih]

theorem roundHalfEven_intCast (m : ℤ) : roundHalfEven ((m : ℚ)) = m := by
  unfold roundHalfEven
  simp [Int.floor_intCast]

theorem pyRound2_of_mul_eq {q : ℚ} {m : ℤ} (h : q * 100 = (m : ℚ)) :
    pyRound2 q = (m : ℚ) / 100 := by
  unfold pyRound2
  rw [h, roundHalfEven_intCast]

/-! ## Claim theorems -/

/-- C7: the ranking the candidate matcher produces over the candidate
records built from the profiles in enumeration order is descending in
`overall_score`, is a permutation of those records, and is stable: for
every score value the tied candidates appear in exactly their original
enumeration order (so inputs differing only in the order of tied profiles
produce correspondingly reordered outputs). -/
theorem ranking_sorted_and_stable (jr : JVal) (profs : List JVal) :
    (pySortDesc (candidateList jr profs)).Pairwise
      (fun a b => overallKey b ≤ overallKey a) ∧
    List.Perm (pySortDesc (candidateList jr profs)) (candidateList jr profs) ∧
    (∀ q : ℚ, (pySortDesc (candidateList jr profs)).filter
        (fun c => decide (overallKey c = q)) =
      (candidateList jr profs).filter (fun c => decide (overallKey c = q))) :=
  ⟨pySortDesc_pairwise _, pySortDesc_perm _, fun q => pySortDesc_filter q _⟩

/-- C2: any email text matching at least one FindBestCandidate pattern is
classified `"find_best_candidate"`, whatever the SpecificUser patterns
would say — the find-best list is consulted first. -/
theorem find_best_patterns_take_priority (email : String)
    (h : anyMatch find_candidate_patterns (pyLower email).toList = true) :
    detect_request_type email = "find_best_candidate" := by
  have h' : anyMatch find_candidate_patterns (pyLower email).data = true := h
  unfold detect_request_type
  simp [h']

/-- Witness for C2: a concrete email matching both a FindBestCandidate
pattern and a SpecificUser pattern is classified `"find_best_candidate"`. -/
theorem find_best_patterns_take_priority_witness :
    anyMatch find_candidate_patterns (pyLower "find best candidate for this role").toList
      = true ∧
    anyMatch user_patterns (pyLower "find best candidate for this role").toList = true ∧
    detect_request_type "find best candidate for this role" = "find_best_candidate" :=
  ⟨rfl, rfl, find_best_patterns_take_priority _ rfl⟩

/-- C3: classifying "Please send John_Doe's resume for this position" does
yield the SpecificUser kind, but the extracted user id is `"this"` — the
first user pattern `resume\s+(?:of\s+|for\s+)?([a-zA-Z0-9_]+)` captures the
word after "resume for", not the name before "resume" — so the claimed
`target_user_id = "john_doe"` is not what the code produces. -/
theorem c3_classification_eval :
    detect_request_type "Please send John_Doe's resume for this position" = "specific_user" ∧
    extract_user_id "Please send John_Doe's resume for this position" = "this" :=
  ⟨rfl, rfl⟩

/-- C4 counterexample: on an email matching no pattern the source returns
`"general_job_posting"` outright; the spec-modelled classifier with a
yes-answering language-model fallback would return
`"find_best_candidate"` — the source consults no fallback. -/
theorem no_llm_fallback_counterexample :
    detect_request_type "hello world" = "general_job_posting" ∧
    detect_request_type_spec (fun _ => true) "hello world" = "find_best_candidate" ∧
    detect_request_type_spec (fun _ => false) "hello world" = "general_job_posting" :=
  ⟨rfl, rfl, rfl⟩

/-- C4 amended: when no FindBestCandidate pattern and no SpecificUser
pattern matches, `detect_request_type` returns `"general_job_posting"`
directly — there is no language-model fallback in the classification. -/
theorem no_pattern_means_general (email : String)
    (h1 : anyMatch find_candidate_patterns (pyLower email).toList = false)
    (h2 : anyMatch user_patterns (pyLower email).toList = false) :
    detect_request_type email = "general_job_posting" := by
  have h1' : anyMatch find_candidate_patterns (pyLower email).data = false := h1
  have h2' : anyMatch user_patterns (pyLower email).data = false := h2
  unfold detect_request_type
  simp [h1', h2']

/-- Witness for the amended C4. -/
theorem no_pattern_means_general_witness :
    anyMatch find_candidate_patterns (pyLower "hello world").toList = false ∧
    anyMatch user_patterns (pyLower "hello world").toList = false ∧
    detect_request_type "hello world" = "general_job_posting" :=
  ⟨rfl, rfl, no_pattern_means_general _ rfl rfl⟩

/-- C5 amended: on every pair of skill inputs the (fallback-path) skills
score lies in `[0, 1]`, and an empty normalized list on either side forces
score `0`; but `0` is not equivalent to emptiness — see the
counterexample. -/
theorem skills_match_bounds (job cand : JVal) :
    0 ≤ calculate_skills_match job cand ∧ calculate_skills_match job cand ≤ 1 ∧
    ((safe_string_processing true job = [] ∨ safe_string_processing true cand = []) →
      calculate_skills_match job cand = 0) := by
  unfold calculate_skills_match
  by_cases hj : (safe_string_processing true job).isEmpty
  · simp [hj]
  · by_cases hc : (safe_string_processing true cand).isEmpty
    · simp [hj, hc]
    · simp only [hj, hc, Bool.or_false, Bool.false_or, if_false]
      set j := safe_string_processing true job with hjdef
      set c := safe_string_processing true cand with hcdef
      have hjne : j ≠ [] := by
        intro h
        rw [h] at hj
        simp at hj
      have hlen : 0 < (j.length : ℚ) := by
        have : 0 < j.length := List.length_pos.mpr hjne
        exact_mod_cast this
      have hcount : (j.countP (fun js => c.any (fun cs => strIn js cs || strIn cs js)) : ℚ)
          ≤ (j.length : ℚ) := by
        exact_mod_cast List.countP_le_length _
      have hq0 : 0 ≤ (j.countP (fun js => c.any (fun cs => strIn js cs || strIn cs js)) : ℚ)
          / (j.length : ℚ) := by positivity
      have hq1 : (j.countP (fun js => c.any (fun cs => strIn js cs || strIn cs js)) : ℚ)
          / (j.length : ℚ) ≤ 1 := by
        rw [div_le_one hlen]
        exact hcount
      refine ⟨pyRound2_nonneg hq0, pyRound2_le_one hq1, ?_⟩
      intro h
      rcases h with h | h
      · exact absurd h hjne
      · have : c ≠ [] := by
          intro h2
          rw [h2] at hc
          simp at hc
        exact absurd h this

/-- Witness for the amended C5: an empty job-skill input yields score 0. -/
theorem skills_match_bounds_witness :
    (safe_string_processing true (JVal.list []) = [] ∨
      safe_string_processing true (JVal.str "java") = []) ∧
    calculate_skills_match (JVal.list []) (JVal.str "java") = 0 :=
  ⟨Or.inl rfl, (skills_match_bounds (JVal.list []) (JVal.str "java")).2.2 (Or.inl rfl)⟩

/-- C5 counterexample: both lists normalize non-empty (`["python"]` and
`["java"]`), yet the substring-containment fallback finds no match and the
score is `0` — so "score is 0 iff a list is empty after normalization"
fails in the only-if direction. -/
theorem skills_match_zero_nonempty_counterexample :
    calculate_skills_match (.list [.str "python"]) (.list [.str "java"]) = 0 ∧
    safe_string_processing true (.list [.str "python"]) = ["python"] ∧
    safe_string_processing true (.list [.str "java"]) = ["java"] := by
  refine ⟨?_, rfl, rfl⟩
  show pyRound2 (((0 : ℕ) : ℚ) / ((1 : ℕ) : ℚ)) = 0
  rw [pyRound2_of_mul_eq (m := 0) (by norm_num)]
  norm_num

/-- C6 counterexample: for the plain string
"3 years as backend engineer" the `<N> year` pattern sums to 3, but the
code assigns `total_years = 2` (its flat "default assumption" once any of
the substrings year/yr/experience/exp occurs), observably: with job level
"senior" the score is `max(0.2, 2/5*0.6) = 0.24`, not the
`max(0.2, 3/5*0.6) = 0.36` the claimed derivation would give. -/
theorem string_experience_years_counterexample :
    yearScan (pyLower "3 years as backend engineer").toList = 3 ∧
    stringExperienceYears "3 years as backend engineer" = 2 ∧
    calculate_experience_match (.str "senior") (.str "3 years as backend engineer") = 6/25 ∧
    levelRangeScore 5 10 3 = 9/25 := by
  refine ⟨rfl, rfl, ?_, ?_⟩
  · show levelRangeScore 5 10 2 = 6/25
    unfold levelRangeScore
    norm_num [max_def]
  · unfold levelRangeScore
    norm_num [max_def]

/-- C6 amended: for every plain non-empty string experience the code
derives `total_years = 2` when any of the indicator substrings
`year`/`yr`/`experience`/`exp` occurs in the lowercased text and
`total_years = 1` otherwise — observably, against a "senior" job level the
score is `0.24` respectively `0.2`; the `<N> year(s)` summation applies
only to list-shaped experience. -/
theorem string_experience_indicator_only (s : String) (h : s ≠ "") :
    calculate_experience_match (.str "senior") (.str s) =
      (if ["year", "yr", "experience", "exp"].any (fun ind => strIn ind (pyLower s)) then
        (6 : ℚ)/25 else 1/5) := by
  have ht : (JVal.str s).truthy = true := by simp [JVal.truthy, h]
  by_cases hc : (["year", "yr", "experience", "exp"].any
      (fun ind => strIn ind (pyLower s))) = true
  · have h2 : stringExperienceYears s = 2 := by simp [stringExperienceYears, hc]
    have h3 : calculate_experience_match (.str "senior") (.str s) =
        levelRangeScore 5 10 (stringExperienceYears s) := by
      unfold calculate_experience_match
      rw [if_neg (by simp [ht])]
      rfl
    rw [h3, h2, if_pos hc]
    unfold levelRangeScore
    norm_num [max_def]
  · have h2 : stringExperienceYears s = 1 := by simp [stringExperienceYears, hc]
    have h3 : calculate_experience_match (.str "senior") (.str s) =
        levelRangeScore 5 10 (stringExperienceYears s) := by
      unfold calculate_experience_match
      rw [if_neg (by simp [ht])]
      rfl
    rw [h3, h2, if_neg (by simp [hc])]
    unfold levelRangeScore
    norm_num [max_def]

/-- Witness for the amended C6. -/
theorem string_experience_indicator_only_witness :
    ("3 years as backend engineer" ≠ "") ∧
    calculate_experience_match (.str "senior") (.str "3 years as backend engineer")
      = (6 : ℚ)/25 :=
  ⟨by decide,
   (string_experience_indicator_only "3 years as backend engineer" (by decide)).trans
     (by rfl)⟩

/-- A stored profile for the C1 scenario: one complete, well-formed
candidate record. -/
def c1Profile : JVal := .obj [
  ("user_id", .str "alice"),
  ("name", .str "Alice"),
  ("email", .str "alice@example.com"),
  ("phone", .str "123"),
  ("education", .list []),
  ("experience", .list []),
  ("skills", .list [.str "Python"]),
  ("resume_path", .null),
  ("cover_letter_path", .null),
  ("created_at", .str "t0"),
  ("updated_at", .str "t0")]

/-- The C1 store: a single non-sentinel profile. -/
def c1Store : Store := [("alice", c1Profile)]

/-- The C1 context, as the email-interpreter stage leaves it for a
FindBestCandidate request: `status = "success"`, job info extracted,
coordination flags set. -/
def c1Ctx : JVal := .obj [
  ("input", .obj [("email_text", .str "find best candidate")]),
  ("output", .obj [("job_info", .obj [
    ("job_title", .str "engineer"),
    ("skills", .list [.str "Python"]),
    ("experience_level", .str "entry")])]),
  ("status", .str "success"),
  ("coordination", .obj [
    ("request_type", .str "find_best_candidate"),
    ("user_id", .str "FIND_BEST_CANDIDATE"),
    ("use_candidate_matcher", .bool true)])]

/-- C1: on a FindBestCandidate context whose matcher run succeeds
internally (the stored `candidate_matching_result` has status `"success"`
and names best candidate `"alice"`), the router's best-candidate branch
returns a context whose `status` still reads `"success"` while
`output.user_profile`, `output.selected_user_id` and
`output.selection_method` are all unset: the router looks for
`output.best_candidate`, but the matcher wrote the result under
`output.candidate_matching_result` (and never set the context `status`
itself), so the attachment block is skipped. -/
theorem best_candidate_branch_leaves_profile_unset :
    ((handle_best_candidate_request (fun _ => .null) "t1" c1Store c1Ctx).1.dGet "status"
        = some (.str "success")) ∧
    (((handle_best_candidate_request (fun _ => .null) "t1" c1Store c1Ctx).1.dGetD
        "output" (.obj [])).dGet "user_profile" = none) ∧
    (((handle_best_candidate_request (fun _ => .null) "t1" c1Store c1Ctx).1.dGetD
        "output" (.obj [])).dGet "selected_user_id" = none) ∧
    (((handle_best_candidate_request (fun _ => .null) "t1" c1Store c1Ctx).1.dGetD
        "output" (.obj [])).dGet "selection_method" = none) ∧
    ((((handle_best_candidate_request (fun _ => .null) "t1" c1Store c1Ctx).1.dGetD
        "output" (.obj [])).dGetD "candidate_matching_result" .null).dGet "status"
        = some (.str "success")) ∧
    (((((handle_best_candidate_request (fun _ => .null) "t1" c1Store c1Ctx).1.dGetD
        "output" (.obj [])).dGetD "candidate_matching_result" .null).dGetD
        "best_candidate" .null).dGet "user_id" = some (.str "alice")) :=
  ⟨rfl, rfl, rfl, rfl, rfl, rfl⟩

/-- C8: for a stored profile that is well-formed (its `user_id` field
matches the storage key and its `created_at` is a set, non-empty string)
and is not modified between `load` and `save`, saving the loaded record
writes back exactly the stored record with only `updated_at` replaced —
in particular `user_id` and `created_at` are preserved. -/
theorem save_load_roundtrip (s : Store) (uid now0 now : String) (p : JVal)
    (hs : storeGet s uid = some p)
    (huid : p.dGet "user_id" = some (.str uid))
    (hcreated : ∃ c : String, c ≠ "" ∧ p.dGet "created_at" = some (.str c)) :
    storeGet (save_profile now (load_profile now0 s uid).2 uid
        (load_profile now0 s uid).1).1 uid = some (p.dSet "updated_at" (.str now)) ∧
    (p.dSet "updated_at" (.str now)).dGet "user_id" = some (.str uid) ∧
    (p.dSet "updated_at" (.str now)).dGet "created_at" = p.dGet "created_at" := by
  obtain ⟨c, hc, hget⟩ := hcreated
  obtain ⟨l, rfl⟩ : ∃ l, p = .obj l := by
    cases p <;> simp [JVal.dGet] at huid
    exact ⟨_, rfl⟩
  have hload : load_profile now0 s uid = (JVal.obj l, s) := by
    unfold load_profile
    rw [hs]
    simp [loadExisting, JVal.dHas, huid]
  have hp1 : (JVal.obj l).dSet "user_id" (.str uid) = .obj l := dSet_id l _ _ huid
  have hcreated2 : ((JVal.obj l).dSet "updated_at" (.str now)).dGet "created_at"
      = some (.str c) := by
    rw [dGet_dSet_ne _ _ _ _ (by decide), hget]
  have hsave : save_profile now s uid (JVal.obj l)
      = (storeSet s uid ((JVal.obj l).dSet "updated_at" (.str now)),
         (JVal.obj l).dSet "updated_at" (.str now)) := by
    unfold save_profile
    dsimp only
    rw [hp1, if_neg]
    simp only [JVal.dHas, JVal.dGetD, hcreated2, Option.isSome_some, Option.getD_some]
    simp [JVal.truthy, hc]
  rw [hload]
  refine ⟨?_, ?_, ?_⟩
  · rw [hsave]
    exact storeGet_storeSet_self _ _ _
  · rw [dGet_dSet_ne _ _ _ _ (by decide), huid]
  · rw [dGet_dSet_ne _ _ _ _ (by decide)]

/-- The stored profile used by the C8 witness. -/
def c8Profile : JVal := .obj [
  ("user_id", .str "carol"),
  ("name", .str "Carol"),
  ("email", .str "carol@example.com"),
  ("skills", .list [.str "sql"]),
  ("created_at", .str "t0"),
  ("updated_at", .str "t0")]

/-- Witness for C8 at a concrete store. -/
theorem save_load_roundtrip_witness :
    storeGet [("carol", c8Profile)] "carol" = some c8Profile ∧
    storeGet (save_profile "t2" (load_profile "t1" [("carol", c8Profile)] "carol").2 "carol"
        (load_profile "t1" [("carol", c8Profile)] "carol").1).1 "carol" =
      some (c8Profile.dSet "updated_at" (.str "t2")) :=
  ⟨rfl,
   (save_load_roundtrip [("carol", c8Profile)] "carol" "t1" "t2" c8Profile rfl rfl
     ⟨"t0", by decide, rfl⟩).1⟩

/-- A record whose `user_id` field disagrees with its storage key
("alice"), as an externally edited `profiles/alice.json` could hold. -/
def c10Stale : JVal := .obj [
  ("user_id", .str "bob"),
  ("skills", .list [.str "python"]),
  ("created_at", .str "t0")]

/-- C10 counterexample: `add_skill` with an already-present skill performs
no save, so the record stored at `alice.json` keeps a `user_id` of
`"bob"` — the claimed invariant fails for the one mutating operation that
can return without writing. -/
theorem add_skill_stale_user_id_counterexample :
    storeGet (add_skill "t1" [("alice", c10Stale)] "alice" "python") "alice"
      = some c10Stale ∧
    c10Stale.dGet "user_id" = some (.str "bob") ∧
    JVal.str "bob" ≠ JVal.str "alice" :=
  ⟨rfl, rfl, by simp⟩

/-- The `user_id` field of the record stored under `uid`, if any. -/
def storedUserId (s : Store) (uid : String) : Option JVal :=
  (storeGet s uid).bind (fun p => p.dGet "user_id")

theorem storedUserId_save (now : String) (s : Store) (uid : String) (p : JVal)
    (h : isObj p = true) :
    storedUserId (save_profile now s uid p).1 uid = some (.str uid) := by
  obtain ⟨l, rfl⟩ : ∃ l, p = .obj l := by
    cases p <;> simp [isObj] at h
    exact ⟨_, rfl⟩
  have huid2 : (((JVal.obj l).dSet "user_id" (.str uid)).dSet "updated_at"
      (.str now)).dGet "user_id" = some (.str uid) := by
    rw [dGet_dSet_ne _ _ _ _ (by decide)]
    exact dGet_dSet_self _ _ _ (by simp [isObj])
  unfold save_profile storedUserId
  dsimp only
  rw [storeGet_storeSet_self, Option.some_bind]
  split_ifs
  · rw [dGet_dSet_ne _ _ _ _ (by decide)]
    exact huid2
  · exact huid2

theorem isObj_save (now : String) (s : Store) (uid : String) (p : JVal)
    (h : isObj p = true) : isObj (save_profile now s uid p).2 = true := by
  obtain ⟨l, rfl⟩ : ∃ l, p = .obj l := by
    cases p <;> simp [isObj] at h
    exact ⟨_, rfl⟩
  unfold save_profile
  dsimp only
  split_ifs <;> simp only [isObj_dSet] <;> rfl

theorem isObj_load (now : String) (s : Store) (uid : String) :
    isObj (load_profile now s uid).1 = true := by
  unfold load_profile
  cases h : storeGet s uid with
  | none =>
      dsimp only
      exact isObj_save now s uid (default_profile uid) rfl
  | some p =>
      dsimp only
      unfold loadExisting
      cases p <;> try rfl
      split_ifs
      · rfl
      · simp only [isObj_dSet]
        rfl

/-- Is the given field of the profile that a load would return (after the
operations' defaulting) a Python list?  `add_skill`/`add_experience`/
`add_education` mutate only such fields; on anything else the source
raises. -/
def fieldIsList (now : String) (s : Store) (uid field : String) : Bool :=
  match ((load_profile now s uid).1).dGet field with
  | some (.list _) => true
  | none => true
  | some _ => false

theorem defaulted_field_list (now : String) (s : Store) (uid field : String)
    (h : fieldIsList now s uid field = true) :
    ∃ l2, (if ¬ ((load_profile now s uid).1).dHas field then
        ((load_profile now s uid).1).dSet field (.list [])
      else (load_profile now s uid).1).dGetD field (.list []) = .list l2 := by
  unfold fieldIsList at h
  cases hv : ((load_profile now s uid).1).dGet field with
  | none =>
      refine ⟨[], ?_⟩
      rw [if_pos (by simp [JVal.dHas, hv])]
      rw [JVal.dGetD, dGet_dSet_self _ _ _ (isObj_load now s uid)]
      rfl
  | some v =>
      rw [hv] at h
      cases v with
      | list l2 =>
          refine ⟨l2, ?_⟩
          rw [if_neg (by simp [JVal.dHas, hv]), JVal.dGetD, hv]
          rfl
      | null => simp at h
      | bool b => simp at h
      | num q => simp at h
      | str t => simp at h
      | obj o => simp at h

/-- C10 amended: every mutating operation that actually writes goes
through `save_profile`, which overwrites the `user_id` field with the
storage key: `save_profile` (on a dict), `update_profile_paths` and
`update_profile_field` always write; `add_experience`/`add_education`
write whenever the mutated field is list-shaped (on anything else the
source raises before writing); `add_skill` either writes — forcing
`user_id = uid` — or (when the skill is already present) performs no
write and leaves the store unchanged. -/
theorem mutators_force_user_id (now uid field skill : String) (s : Store)
    (p value exp edu : JVal) :
    (isObj p = true → storedUserId (save_profile now s uid p).1 uid = some (.str uid)) ∧
    (∀ rp cp, storedUserId (update_profile_paths now s uid rp cp) uid = some (.str uid)) ∧
    storedUserId (update_profile_field now s uid field value) uid = some (.str uid) ∧
    (fieldIsList now s uid "experience" = true →
      storedUserId (add_experience now s uid exp) uid = some (.str uid)) ∧
    (fieldIsList now s uid "education" = true →
      storedUserId (add_education now s uid edu) uid = some (.str uid)) ∧
    (storedUserId (add_skill now s uid skill) uid = some (.str uid) ∨
      add_skill now s uid skill = s) := by
  have hobj := isObj_load now s uid
  refine ⟨fun h => storedUserId_save now s uid p h, ?_, ?_, ?_, ?_, ?_⟩
  · intro rp cp
    unfold update_profile_paths
    dsimp only
    apply storedUserId_save
    split_ifs <;> (repeat rw [isObj_dSet]) <;> exact hobj
  · unfold update_profile_field
    dsimp only
    apply storedUserId_save
    rw [isObj_dSet]
    exact hobj
  · intro h
    obtain ⟨l2, hl2⟩ := defaulted_field_list now s uid "experience" h
    unfold add_experience
    dsimp only
    rw [hl2]
    apply storedUserId_save
    split_ifs <;> (repeat rw [isObj_dSet]) <;> exact hobj
  · intro h
    obtain ⟨l2, hl2⟩ := defaulted_field_list now s uid "education" h
    unfold add_education
    dsimp only
    rw [hl2]
    apply storedUserId_save
    split_ifs <;> (repeat rw [isObj_dSet]) <;> exact hobj
  · unfold add_skill
    dsimp only
    cases hsg : storeGet s uid with
    | some p0 =>
        have hlp2 : (load_profile now s uid).2 = s := by
          unfold load_profile
          rw [hsg]
        cases hm : (if ¬ ((load_profile now s uid).1).dHas "skills" then
            ((load_profile now s uid).1).dSet "skills" (.list [])
          else (load_profile now s uid).1).dGetD "skills" (.list []) with
        | list l2 =>
            dsimp only
            by_cases hmem : JVal.pyMemStr skill l2 = true
            · right
              rw [hmem, if_neg (by simp)]
              exact hlp2
            · left
              rw [Bool.not_eq_true] at hmem
              rw [hmem, if_pos (by simp)]
              apply storedUserId_save
              split_ifs <;> (repeat rw [isObj_dSet]) <;> exact hobj
        | null => right; exact hlp2
        | bool b => right; exact hlp2
        | num q => right; exact hlp2
        | str t => right; exact hlp2
        | obj o => right; exact hlp2
    | none =>
        left
        have hskills : ((load_profile now s uid).1).dGet "skills" = some (.list []) := by
          unfold load_profile
          rw [hsg]
          rfl
        have hhas : ¬ (¬ ((load_profile now s uid).1).dHas "skills" = true) := by
          simp [JVal.dHas, hskills]
        rw [if_neg hhas]
        have hdg : ((load_profile now s uid).1).dGetD "skills" (.list []) = .list [] := by
          rw [JVal.dGetD, hskills]
          rfl
        rw [hdg]
        dsimp only
        rw [if_pos (by simp [JVal.pyMemStr])]
        apply storedUserId_save
        rw [isObj_dSet]
        exact hobj

/-- Witness for the amended C10, at an empty store: a save with a profile
carrying the wrong `user_id` ends with the key as `user_id`, as does an
`add_experience`. -/
theorem mutators_force_user_id_witness :
    isObj (JVal.obj [("user_id", .str "zed")]) = true ∧
    fieldIsList "t1" [] "u" "experience" = true ∧
    storedUserId (save_profile "t1" [] "u" (JVal.obj [("user_id", .str "zed")])).1 "u"
      = some (.str "u") ∧
    storedUserId (add_experience "t1" [] "u" (.str "shipped a compiler")) "u"
      = some (.str "u") :=
  ⟨rfl, rfl,
   (mutators_force_user_id "t1" "u" "f" "sk" [] (JVal.obj [("user_id", .str "zed")])
     .null (.str "shipped a compiler") .null).1 rfl,
   (mutators_force_user_id "t1" "u" "f" "sk" [] (JVal.obj [("user_id", .str "zed")])
     .null (.str "shipped a compiler") .null).2.2.2.1 rfl⟩

/-- C9: with no stored profiles other than (possibly) the
`FIND_BEST_CANDIDATE` sentinel and a FindBestCandidate request, the
router returns the structural error context (`status = "error"`,
`error = "No candidate profiles found"`), and the pipeline run aborts in
the next stage on the missing `output.user_profile` — no render is
performed (the render log stays empty and the artifact set and store are
unchanged). -/
theorem empty_store_aborts_before_render
    (oracle : String → JVal) (now : String) (store : Store) (files : List String)
    (ctx : JVal)
    (hstore : ∀ e ∈ store, e.1 = "FIND_BEST_CANDIDATE")
    (hcoord : ctx.dHas "coordination" = true)
    (hrt : (ctx.dGetD "coordination" (.obj [])).dGet "request_type"
        = some (.str "find_best_candidate")) :
    (profile_retriever_mcp oracle now store ctx).1.dGet "status" = some (.str "error") ∧
    (profile_retriever_mcp oracle now store ctx).1.dGet "error"
      = some (.str "No candidate profiles found") ∧
    run_pipeline oracle now store files ctx
      = (.error (.keyError "user_profile"),
         { store := store, files := files, rendered := [] }) := by
  have hga : get_all_profiles store = [] := by
    unfold get_all_profiles
    have hf : store.filter (fun e => decide (e.1 ≠ "FIND_BEST_CANDIDATE")) = [] := by
      rw [List.filter_eq_nil_iff]
      intro a ha
      simp [hstore a ha]
    rw [hf]
    rfl
  have hhb : handle_best_candidate_request oracle now store ctx =
      (JVal.obj [("status", .str "error"), ("error", .str "No candidate profiles found"),
        ("output", .obj []), ("coordination", ctx.dGetD "coordination" (.obj []))],
       store) := by
    unfold handle_best_candidate_request
    rw [hga]
    rfl
  have hrt2 : (ctx.dGetD "coordination" (.obj [])).dGetD "request_type"
      (.str "general_job_posting") = .str "find_best_candidate" := by
    rw [JVal.dGetD, hrt]
    rfl
  have hcl : handle_coordination_logic oracle now store ctx =
      (JVal.obj [("status", .str "error"), ("error", .str "No candidate profiles found"),
        ("output", .obj []), ("coordination", ctx.dGetD "coordination" (.obj []))],
       store) := by
    unfold handle_coordination_logic
    dsimp only
    rw [hrt2, if_pos (by simp [JVal.eqStr])]
    exact hhb
  have hpr : profile_retriever_mcp oracle now store ctx =
      (JVal.obj [("status", .str "error"), ("error", .str "No candidate profiles found"),
        ("output", .obj []), ("coordination", ctx.dGetD "coordination" (.obj []))],
       store) := by
    unfold profile_retriever_mcp
    rw [if_pos hcoord]
    exact hcl
  refine ⟨by rw [hpr]; rfl, by rw [hpr]; rfl, ?_⟩
  unfold run_pipeline
  rw [hpr]
  rfl

/-- The pipeline context for the C9 witness. -/
def c9Ctx : JVal := .obj [
  ("input", .obj [("email_text", .str "find the best candidate"),
                  ("user_id", .str "FIND_BEST_CANDIDATE")]),
  ("output", .obj []),
  ("status", .str "success"),
  ("coordination", .obj [("request_type", .str "find_best_candidate")])]

/-- The store for the C9 witness: only the sentinel file exists. -/
def c9Store : Store :=
  [("FIND_BEST_CANDIDATE", .obj [("user_id", .str "FIND_BEST_CANDIDATE")])]

/-- Witness for C9: with only the sentinel stored, the FindBestCandidate
pipeline aborts before rendering anything. -/
theorem empty_store_aborts_before_render_witness :
    c9Ctx.dHas "coordination" = true ∧
    (c9Ctx.dGetD "coordination" (.obj [])).dGet "request_type"
      = some (.str "find_best_candidate") ∧
    run_pipeline (fun _ => .null) "t1" c9Store [] c9Ctx
      = (.error (.keyError "user_profile"),
         { store := c9Store, files := [], rendered := [] }) :=
  ⟨rfl, rfl,
   (empty_store_aborts_before_render (fun _ => .null) "t1" c9Store [] c9Ctx
     (by simp [c9Store]) rfl rfl).2.2⟩
